import Mathlib

/-!
Verification of the client-side scripts of the med_transcribe web application.

The development shallowly embeds the three browser scripts
  transcriber/static/transcriber/recorder.js
  transcriber/static/transcriber/modal.js
  transcriber/static/transcriber/time_convert.js
as pure Lean functions.  JavaScript strings are modelled by `String`
(lists of characters), JS numbers that hold integers by `ℤ`/`ℕ`, audio
sample values (doubles in [-1, 1]) by `ℚ`, byte buffers by `List ℤ`, and
DOM/page state by explicit structures that are threaded through the
event handlers.  Fallible steps (a JS statement that can throw) are
modelled with `Except`/`Option`.
-/

/-! ## JavaScript string primitives -/

/-- JS `String.prototype.split(sep)` for a separator string, on character
lists.  The `fuel` argument is initialised with the length of the string
and only bounds the recursion; every recursive call consumes at least one
character, so the bound is never hit when starting with full fuel. -/
def jsSplitAux (sep : List Char) : Nat → List Char → List Char → List (List Char)
  | 0, rest, cur => [cur.reverse ++ rest]
  | Nat.succ fuel, s, cur =>
    match s with
    | [] => [cur.reverse]
    | c :: rest =>
      if List.isPrefixOf sep (c :: rest) then
        cur.reverse :: jsSplitAux sep fuel (List.drop sep.length (c :: rest)) []
      else
        jsSplitAux sep fuel rest (c :: cur)

/-- JS `s.split(sep)` for a non-empty string separator. -/
def jsSplit (s sep : String) : List String :=
  (jsSplitAux sep.data s.data.length s.data []).map (fun cs => String.mk cs)

/-- JS `s.startsWith(p)`. -/
def jsStartsWith (s p : String) : Bool := List.isPrefixOf p.data s.data

/-- JS `s.padStart(2, '0')`: left-pad with `'0'` up to length 2; strings
that are already at least 2 characters long are returned unchanged
(`padStart` never truncates). -/
def jsPadStart2 (s : String) : String :=
  if 2 ≤ s.length then s else String.mk (List.replicate (2 - s.length) '0' ++ s.data)

/-! ## modal.js — Modal Controller

The modal is a single overlay element; the scripts only ever read and
write its `style.display` and the text content of its `modal-content`
child, so the modal state is those two strings. -/

/-- State of the `modal` element: its `style.display` value and the
`textContent` of its `modal-content` container. -/
structure ModalState where
  display : String
  content : String
  deriving DecidableEq

/-- modal.js lines 4-10, `textModal(content)`: sets `display` to
`'block'` and the container's text to `content`. -/
def textModal (content : String) (m : ModalState) : ModalState :=
  { m with display := "block", content := content }

/-- modal.js lines 13-16, `staticModal()`: sets `display` to `'block'`,
leaving the content alone. -/
def staticModal (m : ModalState) : ModalState :=
  { m with display := "block" }

/-- modal.js lines 19-22, `closeModal()`: sets `display` to `'none'`. -/
def closeModal (m : ModalState) : ModalState :=
  { m with display := "none" }

/-! ## recorder.js — timer display, CSRF token -/

/-- recorder.js lines 4-8, `formatTime(sec)`: `Math.floor(sec / 60)` and
`sec % 60`, each rendered with `String(·).padStart(2, '0')` and joined
with `':'`. -/
def formatTime (sec : ℕ) : String :=
  jsPadStart2 (Nat.repr (sec / 60)) ++ ":" ++ jsPadStart2 (Nat.repr (sec % 60))

/-- recorder.js lines 10-15, `getCSRFToken()`: split `document.cookie`
on `'; '`, find the first row starting with `'csrftoken='`, and take
index 1 of its split on `'='`.  The optional chaining `?.` turns a
missing row into `undefined` (here `none`) instead of a thrown error;
an out-of-range index access also yields `undefined`. -/
def getCSRFToken (cookie : String) : Option String :=
  ((jsSplit cookie "; ").find? (fun row => jsStartsWith row "csrftoken=")).bind
    (fun row => (jsSplit row "=").get? 1)

/-! ## recorder.js — floatTo16BitPCM (lines 279-286)

Audio samples are 64-bit floats in JavaScript; all floats are rational,
and the operations used here (comparison, `min`/`max`, multiplication by
a constant) are modelled exactly over `ℚ`.  Storing into an
`Int16Array` truncates the number toward zero and then wraps it to the
signed 16-bit range. -/

/-- JS ToInt16 step 1: truncation toward zero of a number. -/
def truncQ (q : ℚ) : ℤ := if 0 ≤ q then ⌊q⌋ else ⌈q⌉

/-- JS ToInt16 step 2: wrap an integer into the signed 16-bit range, as
an `Int16Array` store does. -/
def toInt16 (v : ℤ) : ℤ := (v + 32768) % 65536 - 32768

/-- recorder.js line 282: `Math.max(-1, Math.min(1, input[i]))`. -/
def clampSample (x : ℚ) : ℚ := max (-1) (min 1 x)

/-- recorder.js lines 282-283, the per-sample body of `floatTo16BitPCM`:
clamp to [-1, 1], then `s < 0 ? s * 0x8000 : s * 0x7FFF`, stored into an
`Int16Array` slot. -/
def floatTo16BitPCMSample (x : ℚ) : ℤ :=
  let s := clampSample x
  toInt16 (truncQ (if s < 0 then s * 32768 else s * 32767))

/-- recorder.js lines 279-286, `floatTo16BitPCM(input)`: the element-wise
conversion of a float sample buffer to 16-bit signed PCM. -/
def floatTo16BitPCM (input : List ℚ) : List ℤ := input.map floatTo16BitPCMSample

/-! ## recorder.js — capture session chunk buffer

The primary recording flow keeps `mp3Data`, a JS array of encoded-chunk
byte arrays.  The `onaudioprocess` callback (lines 121-127) appends the
encoder output for one 4096-sample buffer when it is non-empty, and
`stopBtn.onclick` (lines 143-152) disconnects the processor, appends the
final `flush()` output when it is non-empty and concatenates everything
into one Blob.-/

/-- The push pattern `if (mp3buf.length > 0) mp3Data.push(mp3buf)` used
both by `onaudioprocess` (line 125) and by the stop handler (lines
148-150). -/
def pushChunkIfNonEmpty (mp3Data : List (List ℤ)) (mp3buf : List ℤ) : List (List ℤ) :=
  if 0 < mp3buf.length then mp3Data ++ [mp3buf] else mp3Data

/-- A Blob built from the chunk list (line 152): its bytes are the
concatenation of the chunks. -/
def blobBytes (mp3Data : List (List ℤ)) : List ℤ := mp3Data.flatten

/-- State of one capture session: whether the script processor is still
connected (so its callback can fire), whether `stop` has finalized the
session, and the chunk buffer. -/
structure Session where
  connected : Bool
  finalized : Bool
  mp3Data : List (List ℤ)
  deriving DecidableEq

/-- recorder.js lines 113-119: a fresh session starts connected with an
empty chunk buffer. -/
def initialSession : Session := ⟨true, false, []⟩

/-- Events acting on a session: an `onaudioprocess` callback delivering
the encoder output for one buffer, or the stop click delivering the
encoder `flush()` output. -/
inductive SessionEvent where
  | audioprocess (mp3buf : List ℤ)
  | stop (flushBuf : List ℤ)
  deriving DecidableEq

/-- One step of the session.  `audioprocess` (lines 121-127) appends its
non-empty chunk only while the processor is connected; `stop` (lines
143-150) first disconnects the processor — so no callback can append
afterwards — and only then appends the flush output and finalizes. -/
def sessionStep (s : Session) : SessionEvent → Session
  | .audioprocess buf =>
      if s.connected then { s with mp3Data := pushChunkIfNonEmpty s.mp3Data buf } else s
  | .stop flushBuf =>
      let s1 := { s with connected := false }
      { s1 with mp3Data := pushChunkIfNonEmpty s1.mp3Data flushBuf, finalized := true }

/-- Run a session over a list of events. -/
def runSession (s : Session) (es : List SessionEvent) : Session := es.foldl sessionStep s

/-- The session reached from a fresh start after one `onaudioprocess`
callback per element of `chunks`. -/
def sessionAfter (chunks : List (List ℤ)) : Session :=
  runSession initialSession (chunks.map SessionEvent.audioprocess)

/-! ## recorder.js — the stop handler (lines 143-199)

`stopBtn.onclick` finalizes the session, derives the local-datetime
strings, builds a `FormData`, shows the blocking modal and finally runs
`fetchTranscription(url, token)`.  The statements are straight-line, so
the handler is a pure function from its inputs to a result record; the
final statement is the only fallible one and is modelled with `Except`. -/

/-- A value stored in a JS `FormData` entry. -/
inductive JsValue where
  | str (s : String)
  | num (n : ℤ)
  | bool (b : Bool)
  | blob (bytes : List ℤ) (filename : String)
  deriving DecidableEq

/-- A JS error relevant to these scripts: evaluating an identifier that
no script in the page ever declared throws `ReferenceError`. -/
inductive JsError where
  | referenceError (name : String)
  deriving DecidableEq

/-- One HTTP request as issued by `fetch`: target URL, the
`X-CSRFToken` header value, and the request body. -/
structure JsRequest where
  url : String
  csrfHeader : Option String
  body : List (String × JsValue)
  deriving DecidableEq

/-- Identifiers that scripts other than the three in this repository
might have added to the page's global scope.  `recorder.js`,
`modal.js` and `time_convert.js` declare no global named `token` and no
global named `formData`, which is recorded by `repoScripts`. -/
structure PageScripts where
  tokenDefined : Bool
  formDataGlobal : Option (List (String × JsValue))
  deriving DecidableEq

/-- The global scope contributed by the repository's own scripts: no
`token`, no `formData`. -/
def repoScripts : PageScripts := ⟨false, none⟩

/-- `URL.createObjectURL(blob)` (line 153): an opaque URL in the
`blob:` scheme.  Only the scheme matters to the claims; the model keys
the tail on the blob length. -/
def createObjectURL (bytes : List ℤ) : String := "blob:" ++ Nat.repr bytes.length

/-- A JS `Date` observed at stop time, with the fields the handler
reads; `month` is 0-based exactly as returned by `Date.getMonth()`. -/
structure JSDate where
  fullYear : ℕ
  month : ℕ
  date : ℕ
  hours : ℕ
  minutes : ℕ
  seconds : ℕ
  deriving DecidableEq

/-- recorder.js lines 160-170: `String(year)` and the five
`String(·).padStart(2, '0')` components joined with no separator at all
into the template literal
`${year}${month}${day}${hours}${minutes}${seconds}`. -/
def formattedDateTimeOf (d : JSDate) : String :=
  Nat.repr d.fullYear ++ jsPadStart2 (Nat.repr (d.month + 1)) ++ jsPadStart2 (Nat.repr d.date)
    ++ jsPadStart2 (Nat.repr d.hours) ++ jsPadStart2 (Nat.repr d.minutes)
    ++ jsPadStart2 (Nat.repr d.seconds)

/-- recorder.js lines 106-110: the hidden `timezone_offset` input is set
at page load to `-(new Date().getTimezoneOffset())`, flipping the sign
of the browser-native value. -/
def timezoneOffsetInputValue (timezoneOffset : ℤ) : ℤ := -timezoneOffset

/-- recorder.js lines 17-24, `fetchTranscription(url)` up to the point
the request is handed to the network: it posts to `url` — its only
parameter — with the CSRF cookie header, and its `body:` is the
identifier `formData`, which is not declared in `fetchTranscription`,
in any enclosing scope of the three repository scripts, or globally by
them; if no other script defined it, evaluating it throws
`ReferenceError`. -/
def fetchTranscriptionCall (url : String) (cookie : String) (env : PageScripts) :
    Except JsError JsRequest :=
  match env.formDataGlobal with
  | none => .error (.referenceError "formData")
  | some fd => .ok ⟨url, getCSRFToken cookie, fd⟩

/-- The result of one run of `stopBtn.onclick` (lines 143-199), one
field per observable effect, in source order. -/
structure StopResult where
  mp3DataFinal : List (List ℤ)
  blob : List ℤ
  audioPlaybackSrc : String
  downloadHref : String
  startBtnDisabled : Bool
  stopBtnDisabled : Bool
  formattedDateTime : String
  downloadName : String
  localDatetimeHiddenValue : String
  downloadLinkDisplay : String
  timerCleared : Bool
  timerDisplay : String
  formData : List (String × JsValue)
  modal : ModalState
  fetchCall : Except JsError JsRequest

/-- recorder.js lines 143-199, `stopBtn.onclick`.  Inputs: the chunk
buffer accumulated by the callbacks, the encoder `flush()` output, the
current date, the module-scoped `timezoneOffset` captured at page load
(line 106), the current timer text, the modal state, `document.cookie`
and the globals contributed by scripts outside this repository.  The
final statement `fetchTranscription(url, token)` (line 198) first
evaluates its arguments: `url` is the blob object URL from line 153,
and `token` is declared nowhere in the repository's scripts, so with
`repoScripts` the statement throws before any request is made. -/
def stopBtnOnClick (mp3Data : List (List ℤ)) (flushBuf : List ℤ) (currentDate : JSDate)
    (timezoneOffset : ℤ) (timerText : String) (modal0 : ModalState) (cookie : String)
    (env : PageScripts) : StopResult :=
  let mp3DataFinal := pushChunkIfNonEmpty mp3Data flushBuf
  let blob := blobBytes mp3DataFinal
  let url := createObjectURL blob
  let formattedDateTime := formattedDateTimeOf currentDate
  let formData : List (String × JsValue) :=
    [("file", .blob blob (formattedDateTime ++ ".mp3")),
     ("new_file", .bool true),
     ("local_datetime", .str formattedDateTime),
     ("timezone_offset", .num timezoneOffset)]
  { mp3DataFinal := mp3DataFinal
    blob := blob
    audioPlaybackSrc := url
    downloadHref := url
    startBtnDisabled := false
    stopBtnDisabled := true
    formattedDateTime := formattedDateTime
    downloadName := formattedDateTime ++ ".mp3"
    localDatetimeHiddenValue := formattedDateTime
    downloadLinkDisplay := "block"
    timerCleared := true
    timerDisplay := timerText ++ " (Stopped)"
    formData := formData
    modal := textModal "Please wait for transcription to complete..." modal0
    fetchCall :=
      if env.tokenDefined then fetchTranscriptionCall url cookie env
      else .error (.referenceError "token") }

/-! ## recorder.js — response handling of the exchanges

`fetchTranscription` (lines 24-70) and the voice-chat stop handler's
fetch (lines 264-276) each install a `.then` success continuation and a
`.catch` that only calls `console.error`.  The network outcome — a
parsed JSON value, or any error (network failure, non-JSON body, or a
throw inside the success continuation) — is modelled as an `Except`
fed to the installed handlers. -/

/-- The transcription JSON the primary exchange consumes
(`data.context.transcription`). -/
structure TranscriptionData where
  filename : String
  transcript : String
  formattedText : String
  deriving DecidableEq

/-- The page state touched by `fetchTranscription`'s handlers. -/
structure RecorderPage where
  noTranscriptionMessageDisplay : String
  reformatFormPresent : Bool
  submitButtonFormAttr : String
  submitButtonName : String
  formFilename : String
  formTranscript : String
  iframeBodyHTML : String
  formContainerPresent : Bool
  formContainerDisplay : String
  modal : ModalState
  consoleErrors : List String
  deriving DecidableEq

/-- recorder.js lines 25-67, the success continuation of
`fetchTranscription`: hide the no-transcription message; if the
`reformat` form is absent, rename the `reformat_edited` form and its
submit button (lines 35-45); fill filename and transcript, write the
formatted text into the editor iframe body, reveal the form container
when present, and close the modal. -/
def fetchTranscriptionOnSuccess (data : TranscriptionData) (p : RecorderPage) : RecorderPage :=
  let p1 := { p with noTranscriptionMessageDisplay := "none" }
  let p2 :=
    if p1.reformatFormPresent then p1
    else { p1 with reformatFormPresent := true, submitButtonFormAttr := "reformat",
                   submitButtonName := "reformat" }
  let p3 := { p2 with formFilename := data.filename, formTranscript := data.transcript,
                      iframeBodyHTML := data.formattedText }
  let p4 := if p3.formContainerPresent then { p3 with formContainerDisplay := "block" } else p3
  { p4 with modal := closeModal p4.modal }

/-- recorder.js lines 68-70, the `.catch` of `fetchTranscription`: only
`console.error('Error:', error)` — nothing else changes. -/
def fetchTranscriptionOnError (err : String) (p : RecorderPage) : RecorderPage :=
  { p with consoleErrors := p.consoleErrors ++ [err] }

/-- The promise chain of `fetchTranscription` (lines 24-70): route the
outcome to the success continuation or the catch. -/
def fetchTranscriptionHandle (outcome : Except String TranscriptionData)
    (p : RecorderPage) : RecorderPage :=
  match outcome with
  | .ok data => fetchTranscriptionOnSuccess data p
  | .error e => fetchTranscriptionOnError e p

/-- The page state touched by the voice-chat exchange handlers. -/
structure ChatPage where
  chatInputValue : String
  modal : ModalState
  consoleErrors : List String
  deriving DecidableEq

/-- recorder.js lines 264-276, the promise chain of the voice-chat stop
handler's fetch: on success append the transcript to the `edit_chat`
input and close the modal; the `.catch` (lines 274-276) only logs. -/
def voiceChatHandle (outcome : Except String String) (p : ChatPage) : ChatPage :=
  match outcome with
  | .ok transcript =>
      { p with chatInputValue := p.chatInputValue ++ " " ++ transcript,
               modal := closeModal p.modal }
  | .error e => { p with consoleErrors := p.consoleErrors ++ [e] }

/-! ## Helper lemmas -/

theorem jsPadStart2_length (s : String) : (jsPadStart2 s).length = max 2 s.length := by
  unfold jsPadStart2
  split
  · omega
  · show (List.replicate (2 - s.length) '0' ++ s.data).length = max 2 s.length
    rw [List.length_append, List.length_replicate]
    show 2 - s.length + s.data.length = max 2 s.length
    have : s.data.length = s.length := rfl
    omega

theorem length_append' (a b : String) : (a ++ b).length = a.length + b.length := by
  cases a; cases b
  show (List.append _ _).length = _
  rw [List.append_eq, List.length_append]
  rfl

theorem repr_length_le_two : ∀ n < 100, (Nat.repr n).length ≤ 2 := by decide

theorem isPrefixOf_append (l t : List Char) : List.isPrefixOf l (l ++ t) = true := by
  induction l with
  | nil => simp [List.isPrefixOf]
  | cons c cs ih => simp [List.isPrefixOf, ih]

/-! ## Claim theorems -/

/-- C8: for the Modal Controller, `textModal("x")` followed by
`closeModal()` leaves the modal hidden, and `closeModal()` on an
already-hidden modal raises no error (it is a total function) and
changes no state. -/
theorem modal_close_idempotent :
    (∀ m : ModalState, (closeModal (textModal "x" m)).display = "none") ∧
    (∀ m : ModalState, m.display = "none" → closeModal m = m) := by
  constructor
  · intro m; rfl
  · intro m h
    cases m
    simp only [closeModal]
    simp_all

/-- Witness for C8 at concrete modal states. -/
theorem modal_close_idempotent_witness :
    (closeModal (textModal "x" ⟨"block", ""⟩)).display = "none" ∧
    closeModal ⟨"none", "hello"⟩ = (⟨"none", "hello"⟩ : ModalState) :=
  ⟨modal_close_idempotent.1 ⟨"block", ""⟩, modal_close_idempotent.2 ⟨"none", "hello"⟩ rfl⟩

/-- C9 counterexample: at 6000 elapsed seconds (100 minutes) the
rendered display is `"100:00"`, whose minutes field has three digits,
so the display is not of the form `m ++ ":" ++ s` with both fields of
length exactly two. -/
theorem formatTime_two_digit_counterexample :
    formatTime 6000 = "100:00" ∧
    ¬ ∃ m s : String, m.length = 2 ∧ s.length = 2 ∧ formatTime 6000 = m ++ ":" ++ s := by
  constructor
  · decide
  · rintro ⟨m, s, hm, hs, he⟩
    have h6 : (formatTime 6000).length = 6 := by decide
    rw [he, length_append', length_append'] at h6
    have hc : (":" : String).length = 1 := rfl
    omega

/-- C9 (amended): `formatTime` always renders `m ++ ":" ++ s` with the
seconds field exactly two digits and the minutes field at least two
digits (zero-padded, never truncated); whenever the elapsed count is
below 6000 seconds — minutes below 100 — the whole display has length
5, i.e. the minutes field too is exactly two digits. -/
theorem formatTime_fields :
    ∀ sec : ℕ,
      (∃ m s : String, formatTime sec = m ++ ":" ++ s ∧ 2 ≤ m.length ∧ s.length = 2) ∧
      (sec < 6000 → (formatTime sec).length = 5) := by
  intro sec
  have hsec2 : (jsPadStart2 (Nat.repr (sec % 60))).length = 2 := by
    rw [jsPadStart2_length]
    have h60 : sec % 60 < 100 := by omega
    have := repr_length_le_two _ h60
    omega
  constructor
  · refine ⟨_, _, rfl, ?_, hsec2⟩
    rw [jsPadStart2_length]
    omega
  · intro h
    have hd : sec / 60 < 100 := by omega
    have hr := repr_length_le_two _ hd
    show (jsPadStart2 (Nat.repr (sec / 60)) ++ ":" ++ jsPadStart2 (Nat.repr (sec % 60))).length = 5
    rw [length_append', length_append', hsec2, jsPadStart2_length]
    have hc : (":" : String).length = 1 := rfl
    omega

/-- Witness for C9 (amended) at 3 elapsed seconds. -/
theorem formatTime_fields_witness :
    (∃ m s : String, formatTime 3 = m ++ ":" ++ s ∧ 2 ≤ m.length ∧ s.length = 2) ∧
    (formatTime 3).length = 5 :=
  ⟨(formatTime_fields 3).1, (formatTime_fields 3).2 (by decide)⟩

/-- C10: `getCSRFToken` is a total function — it never throws — and
when no cookie entry starts with `"csrftoken="` it returns `undefined`
(`none`), thanks to the optional chaining after `find`. -/
theorem getCSRFToken_none_when_absent :
    ∀ cookie : String,
      (∀ row ∈ jsSplit cookie "; ", jsStartsWith row "csrftoken=" = false) →
      getCSRFToken cookie = none := by
  intro cookie h
  have hfind : (jsSplit cookie "; ").find? (fun row => jsStartsWith row "csrftoken=") = none := by
    rw [List.find?_eq_none]
    intro x hx
    simp [h x hx]
  unfold getCSRFToken
  rw [hfind]
  rfl

/-- Witness for C10 on a cookie with no csrftoken entry. -/
theorem getCSRFToken_none_when_absent_witness :
    (∀ row ∈ jsSplit "sessionid=abc; theme=dark" "; ",
        jsStartsWith row "csrftoken=" = false) ∧
    getCSRFToken "sessionid=abc; theme=dark" = none :=
  ⟨by decide, getCSRFToken_none_when_absent "sessionid=abc; theme=dark" (by decide)⟩

/-- C7: for both exchange flows, a failed exchange (network error or
non-JSON response) runs only the `.catch`, which appends to the console
error log and leaves every other part of the page — in particular the
blocking modal shown before the request — untouched; only the success
continuation closes the modal. -/
theorem exchange_failure_modal_stays :
    (∀ (e : String) (p : RecorderPage),
        fetchTranscriptionHandle (.error e) p =
          { p with consoleErrors := p.consoleErrors ++ [e] }) ∧
    (∀ (e : String) (p : RecorderPage), (fetchTranscriptionHandle (.error e) p).modal = p.modal) ∧
    (∀ (d : TranscriptionData) (p : RecorderPage),
        (fetchTranscriptionHandle (.ok d) p).modal.display = "none") ∧
    (∀ (e : String) (p : ChatPage),
        voiceChatHandle (.error e) p = { p with consoleErrors := p.consoleErrors ++ [e] }) ∧
    (∀ (e : String) (p : ChatPage), (voiceChatHandle (.error e) p).modal = p.modal) ∧
    (∀ (t : String) (p : ChatPage), (voiceChatHandle (.ok t) p).modal.display = "none") :=
  ⟨fun _ _ => rfl, fun _ _ => rfl, fun _ _ => rfl, fun _ _ => rfl, fun _ _ => rfl, fun _ _ => rfl⟩

theorem sessionStep_audioprocess_disconnected {s : Session} (h : s.connected = false)
    (buf : List ℤ) : sessionStep s (.audioprocess buf) = s := by
  simp [sessionStep, h]

theorem runSession_audioprocess_connected (chunks : List (List ℤ)) :
    ∀ (acc : List (List ℤ)) (f : Bool), (∀ c ∈ chunks, 0 < c.length) →
      runSession ⟨true, f, acc⟩ (chunks.map SessionEvent.audioprocess) =
        ⟨true, f, acc ++ chunks⟩ := by
  induction chunks with
  | nil => intro acc f _; simp [runSession]
  | cons c cs ih =>
      intro acc f h
      have hc : 0 < c.length := h c (by simp)
      have hstep : sessionStep ⟨true, f, acc⟩ (.audioprocess c) = ⟨true, f, acc ++ [c]⟩ := by
        simp [sessionStep, pushChunkIfNonEmpty, hc]
      show runSession (sessionStep ⟨true, f, acc⟩ (.audioprocess c)) (cs.map _) = _
      rw [hstep, ih (acc ++ [c]) f (fun x hx => h x (by simp [hx]))]
      simp

/-- C6: the chunk buffer is append-only — every event extends `mp3Data`
on the right — and `stop` disconnects the processing callback before
appending the flush output and finalizing, so any `onaudioprocess`
callback arriving after a stop leaves the session, and in particular
the chunk buffer, completely unchanged: no chunk can follow the flush
bytes. -/
theorem chunk_buffer_append_only :
    (∀ (s : Session) (e : SessionEvent), ∃ t, (sessionStep s e).mp3Data = s.mp3Data ++ t) ∧
    (∀ (s : Session) (flushBuf : List ℤ),
        (sessionStep s (.stop flushBuf)).connected = false ∧
        (sessionStep s (.stop flushBuf)).finalized = true ∧
        (sessionStep s (.stop flushBuf)).mp3Data = pushChunkIfNonEmpty s.mp3Data flushBuf) ∧
    (∀ (s : Session) (flushBuf : List ℤ) (bufs : List (List ℤ)),
        runSession (sessionStep s (.stop flushBuf)) (bufs.map SessionEvent.audioprocess) =
          sessionStep s (.stop flushBuf)) := by
  refine ⟨?_, ?_, ?_⟩
  · intro s e
    cases e with
    | audioprocess buf =>
        by_cases hc : s.connected
        · simp only [sessionStep, if_pos hc, pushChunkIfNonEmpty]
          by_cases hb : 0 < buf.length
          · exact ⟨[buf], by simp [hb]⟩
          · exact ⟨[], by simp [hb]⟩
        · exact ⟨[], by simp [sessionStep, hc]⟩
    | stop flushBuf =>
        simp only [sessionStep, pushChunkIfNonEmpty]
        by_cases hb : 0 < flushBuf.length
        · exact ⟨[flushBuf], by simp [hb]⟩
        · exact ⟨[], by simp [hb]⟩
  · intro s flushBuf
    exact ⟨rfl, rfl, rfl⟩
  · intro s flushBuf bufs
    have hdis : (sessionStep s (.stop flushBuf)).connected = false := rfl
    generalize hgen : sessionStep s (.stop flushBuf) = s'
    rw [hgen] at hdis
    clear hgen
    induction bufs with
    | nil => rfl
    | cons b bs ih =>
        show runSession (sessionStep s' (.audioprocess b)) (bs.map _) = s'
        rw [sessionStep_audioprocess_disconnected hdis]
        exact ih

/-- C5: stopping after callbacks that each appended a non-empty encoder
chunk produces an artifact (the Blob built by `stopBtn.onclick`) whose
byte length is the sum of all chunk lengths plus the length of the
final `flush()` output (which contributes nothing when empty). -/
theorem artifact_length_eq_chunk_sum :
    ∀ (chunks : List (List ℤ)) (flushBuf : List ℤ) (d : JSDate) (tz : ℤ)
      (timerText : String) (m : ModalState) (cookie : String) (env : PageScripts),
      (∀ c ∈ chunks, 0 < c.length) →
      ((stopBtnOnClick (sessionAfter chunks).mp3Data flushBuf d tz timerText m cookie
          env).blob).length =
        (chunks.map List.length).sum + flushBuf.length := by
  intro chunks flushBuf d tz timerText m cookie env h
  have hrun : sessionAfter chunks = ⟨true, false, chunks⟩ := by
    unfold sessionAfter initialSession
    simpa using runSession_audioprocess_connected chunks [] false h
  show (blobBytes (pushChunkIfNonEmpty (sessionAfter chunks).mp3Data flushBuf)).length = _
  rw [hrun]
  show (blobBytes (pushChunkIfNonEmpty chunks flushBuf)).length = _
  unfold pushChunkIfNonEmpty blobBytes
  by_cases hb : 0 < flushBuf.length
  · rw [if_pos hb]
    simp [List.length_flatten]
  · rw [if_neg hb]
    have : flushBuf.length = 0 := by omega
    simp [List.length_flatten, this]

/-- Witness for C5: two callback chunks and a one-byte flush give a
four-byte artifact. -/
theorem artifact_length_eq_chunk_sum_witness :
    (∀ c ∈ [[(1 : ℤ)], [2, 3]], 0 < c.length) ∧
    ((stopBtnOnClick (sessionAfter [[(1 : ℤ)], [2, 3]]).mp3Data [4] ⟨2024, 0, 1, 0, 0, 0⟩ 0
        "" ⟨"none", ""⟩ "" repoScripts).blob).length = 4 :=
  ⟨by decide,
   (artifact_length_eq_chunk_sum [[(1 : ℤ)], [2, 3]] [4] ⟨2024, 0, 1, 0, 0, 0⟩ 0
      "" ⟨"none", ""⟩ "" repoScripts (by decide)).trans (by decide)⟩

theorem truncQ_intCast (z : ℤ) : truncQ (z : ℚ) = z := by
  unfold truncQ
  split
  · exact Int.floor_intCast z
  · exact Int.ceil_intCast z

theorem toInt16_eq_self {v : ℤ} (h1 : -32768 ≤ v) (h2 : v ≤ 32767) : toInt16 v = v := by
  unfold toInt16
  omega

theorem truncQ_bounds {q : ℚ} (h1 : -32768 ≤ q) (h2 : q ≤ 32767) :
    -32768 ≤ truncQ q ∧ truncQ q ≤ 32767 := by
  unfold truncQ
  have e1 : ((-32768 : ℤ) : ℚ) = -32768 := by norm_num
  have e2 : ((32767 : ℤ) : ℚ) = 32767 := by norm_num
  split
  · constructor
    · rw [← e1] at h1
      have := Int.le_floor.mpr h1
      simpa using this
    · rw [← e2] at h2
      have := Int.floor_le_floor h2
      simpa [Int.floor_intCast] using this
  · constructor
    · rw [← e1] at h1
      have := Int.ceil_le_ceil h1
      simpa [Int.ceil_intCast] using this
    · rw [← e2] at h2
      have := Int.ceil_le.mpr h2
      simpa using this

theorem clampSample_of_le_neg_one {x : ℚ} (h : x ≤ -1) : clampSample x = -1 := by
  unfold clampSample
  rw [min_eq_right (by linarith : x ≤ (1 : ℚ)), max_eq_left h]

theorem clampSample_of_one_le {x : ℚ} (h : 1 ≤ x) : clampSample x = 1 := by
  unfold clampSample
  rw [min_eq_left h, max_eq_right (by norm_num : (-1 : ℚ) ≤ 1)]

theorem clampSample_of_mem {x : ℚ} (h1 : -1 ≤ x) (h2 : x ≤ 1) : clampSample x = x := by
  unfold clampSample
  rw [min_eq_right h2, max_eq_right h1]

theorem sample_scaled_neg {x : ℚ} (h1 : -1 ≤ x) (h2 : x < 0) :
    floatTo16BitPCMSample x = truncQ (x * 32768) := by
  unfold floatTo16BitPCMSample
  rw [clampSample_of_mem h1 (by linarith)]
  show toInt16 (truncQ (if x < 0 then x * 32768 else x * 32767)) = truncQ (x * 32768)
  rw [if_pos h2]
  have hq1 : (-32768 : ℚ) ≤ x * 32768 := by linarith
  have hq2 : x * 32768 ≤ 32767 := by nlinarith
  obtain ⟨b1, b2⟩ := truncQ_bounds hq1 hq2
  exact toInt16_eq_self b1 b2

theorem sample_scaled_nonneg {x : ℚ} (h1 : 0 ≤ x) (h2 : x ≤ 1) :
    floatTo16BitPCMSample x = truncQ (x * 32767) := by
  unfold floatTo16BitPCMSample
  rw [clampSample_of_mem (by linarith) h2]
  show toInt16 (truncQ (if x < 0 then x * 32768 else x * 32767)) = truncQ (x * 32767)
  rw [if_neg (by linarith : ¬ x < 0)]
  have hq1 : (-32768 : ℚ) ≤ x * 32767 := by nlinarith
  have hq2 : x * 32767 ≤ 32767 := by nlinarith
  obtain ⟨b1, b2⟩ := truncQ_bounds hq1 hq2
  exact toInt16_eq_self b1 b2

/-- C4: the PCM conversion first clamps each sample to [-1, 1]; the
clamped value is scaled by 32768 when negative and by 32767 when
non-negative, so -1 maps to -32768 and values in (0, 1] scale linearly
by 32767 — 1 maps to 32767, and no sample ever maps to 32768 (the
output always lies in [-32768, 32767]). -/
theorem floatTo16BitPCM_mapping :
    (∀ x : ℚ, x ≤ -1 → floatTo16BitPCMSample x = -32768) ∧
    (∀ x : ℚ, 1 ≤ x → floatTo16BitPCMSample x = 32767) ∧
    (∀ x : ℚ, -1 ≤ x → x < 0 → floatTo16BitPCMSample x = truncQ (x * 32768)) ∧
    (∀ x : ℚ, 0 ≤ x → x ≤ 1 → floatTo16BitPCMSample x = truncQ (x * 32767)) ∧
    (∀ x : ℚ, -32768 ≤ floatTo16BitPCMSample x ∧ floatTo16BitPCMSample x ≤ 32767) := by
  have hneg1 : ∀ x : ℚ, x ≤ -1 → floatTo16BitPCMSample x = -32768 := by
    intro x h
    unfold floatTo16BitPCMSample
    rw [clampSample_of_le_neg_one h]
    show toInt16 (truncQ (if (-1 : ℚ) < 0 then (-1 : ℚ) * 32768 else (-1 : ℚ) * 32767)) = -32768
    rw [if_pos (by norm_num : (-1 : ℚ) < 0)]
    have e : ((-1 : ℚ) * 32768) = ((-32768 : ℤ) : ℚ) := by norm_num
    rw [e, truncQ_intCast]
    exact toInt16_eq_self (by norm_num) (by norm_num)
  have hpos1 : ∀ x : ℚ, 1 ≤ x → floatTo16BitPCMSample x = 32767 := by
    intro x h
    unfold floatTo16BitPCMSample
    rw [clampSample_of_one_le h]
    show toInt16 (truncQ (if (1 : ℚ) < 0 then (1 : ℚ) * 32768 else (1 : ℚ) * 32767)) = 32767
    rw [if_neg (by norm_num : ¬ (1 : ℚ) < 0)]
    have e : ((1 : ℚ) * 32767) = ((32767 : ℤ) : ℚ) := by norm_num
    rw [e, truncQ_intCast]
    exact toInt16_eq_self (by norm_num) (by norm_num)
  refine ⟨hneg1, hpos1, fun x h1 h2 => sample_scaled_neg h1 h2,
          fun x h1 h2 => sample_scaled_nonneg h1 h2, ?_⟩
  intro x
  rcases le_or_lt x (-1) with h | h
  · rw [hneg1 x h]; constructor <;> norm_num
  · rcases le_or_lt 1 x with h' | h'
    · rw [hpos1 x h']; constructor <;> norm_num
    · rcases lt_or_le x 0 with hx | hx
      · rw [sample_scaled_neg (le_of_lt h) hx]
        have hq1 : (-32768 : ℚ) ≤ x * 32768 := by linarith
        have hq2 : x * 32768 ≤ 32767 := by nlinarith
        exact truncQ_bounds hq1 hq2
      · rw [sample_scaled_nonneg hx (le_of_lt h')]
        have hq1 : (-32768 : ℚ) ≤ x * 32767 := by nlinarith
        have hq2 : x * 32767 ≤ 32767 := by nlinarith
        exact truncQ_bounds hq1 hq2

/-- Witness for C4 at the endpoints and at clamped inputs. -/
theorem floatTo16BitPCM_mapping_witness :
    floatTo16BitPCMSample (-2) = -32768 ∧ floatTo16BitPCMSample 2 = 32767 ∧
    floatTo16BitPCMSample (-1) = truncQ ((-1 : ℚ) * 32768) ∧
    floatTo16BitPCMSample 1 = truncQ ((1 : ℚ) * 32767) :=
  ⟨floatTo16BitPCM_mapping.1 (-2) (by norm_num),
   floatTo16BitPCM_mapping.2.1 2 (by norm_num),
   floatTo16BitPCM_mapping.2.2.1 (-1) (by norm_num) (by norm_num),
   floatTo16BitPCM_mapping.2.2.2.1 1 (by norm_num) (by norm_num)⟩

/-- C1: `stop()` never posts the new-recording form to the transcription
endpoint.  With the globals the repository's scripts actually declare,
the final statement `fetchTranscription(url, token)` throws
`ReferenceError` on the undeclared identifier `token` before any request
is made; and even if some other script had supplied globals named
`token` and `formData`, the request `fetchTranscription` builds targets
`url` — the `blob:` object URL of the artifact, not a server endpoint —
and its body is that global `formData`, never the form built inside the
stop handler. -/
theorem stopClick_posts_nothing :
    (∀ (mp3Data : List (List ℤ)) (flushBuf : List ℤ) (d : JSDate) (tz : ℤ)
       (timerText : String) (m : ModalState) (cookie : String),
        (stopBtnOnClick mp3Data flushBuf d tz timerText m cookie repoScripts).fetchCall =
          .error (.referenceError "token")) ∧
    (∀ (mp3Data : List (List ℤ)) (flushBuf : List ℤ) (d : JSDate) (tz : ℤ)
       (timerText : String) (m : ModalState) (cookie : String)
       (fd : List (String × JsValue)),
        (stopBtnOnClick mp3Data flushBuf d tz timerText m cookie ⟨true, some fd⟩).fetchCall =
          .ok ⟨createObjectURL (blobBytes (pushChunkIfNonEmpty mp3Data flushBuf)),
               getCSRFToken cookie, fd⟩) ∧
    (∀ bytes : List ℤ, jsStartsWith (createObjectURL bytes) "blob:" = true) := by
  refine ⟨fun _ _ _ _ _ _ _ => rfl, fun _ _ _ _ _ _ _ _ => rfl, ?_⟩
  intro bytes
  show List.isPrefixOf "blob:".data (("blob:" ++ Nat.repr bytes.length).data) = true
  have e : ("blob:" ++ Nat.repr bytes.length).data = "blob:".data ++ (Nat.repr bytes.length).data := by
    cases hb : Nat.repr bytes.length
    rfl
  rw [e]
  exact isPrefixOf_append _ _

/-- C2: the `timezone_offset` entry placed into the new-recording form
submission is the module-scoped `timezoneOffset` itself — the
platform-reported `getTimezoneOffset()` value with its sign unchanged —
not its negation; only the hidden page input receives the negated
value.  Concretely, for a platform offset of -120 (UTC+2) the form
carries -120 while the hidden input holds 120 = -(-120). -/
theorem stopClick_timezone_offset_raw :
    (∀ (mp3Data : List (List ℤ)) (flushBuf : List ℤ) (d : JSDate) (tz : ℤ)
       (timerText : String) (m : ModalState) (cookie : String) (env : PageScripts),
        (stopBtnOnClick mp3Data flushBuf d tz timerText m cookie env).formData =
          [("file", JsValue.blob (blobBytes (pushChunkIfNonEmpty mp3Data flushBuf))
                      (formattedDateTimeOf d ++ ".mp3")),
           ("new_file", JsValue.bool true),
           ("local_datetime", JsValue.str (formattedDateTimeOf d)),
           ("timezone_offset", JsValue.num tz)]) ∧
    timezoneOffsetInputValue (-120) = 120 ∧
    ((stopBtnOnClick [[1]] [] ⟨2024, 0, 2, 3, 4, 5⟩ (-120) "" ⟨"none", ""⟩ ""
        repoScripts).formData.get? 3 = some ("timezone_offset", JsValue.num (-120))) ∧
    (-120 : ℤ) ≠ -(-120 : ℤ) := by
  refine ⟨fun _ _ _ _ _ _ _ _ => rfl, rfl, rfl, by decide⟩

/-- C3: the generated download filename is the 14-character concatenated
`YYYYMMDDHHMMSS` pattern followed by `".mp3"` — it contains no
underscore, although the source comment announces the desired format
`YYYYMMDD_HHMMSS` — and the hidden `local_datetime` field holds exactly
the same 14-character value.  Evaluated at the local date-time
2024-01-02 03:04:05. -/
theorem stopClick_datetime_no_underscore :
    (∀ (mp3Data : List (List ℤ)) (flushBuf : List ℤ) (d : JSDate) (tz : ℤ)
       (timerText : String) (m : ModalState) (cookie : String) (env : PageScripts),
        (stopBtnOnClick mp3Data flushBuf d tz timerText m cookie env).downloadName =
          formattedDateTimeOf d ++ ".mp3" ∧
        (stopBtnOnClick mp3Data flushBuf d tz timerText m cookie
            env).localDatetimeHiddenValue = formattedDateTimeOf d) ∧
    formattedDateTimeOf ⟨2024, 0, 2, 3, 4, 5⟩ = "20240102030405" ∧
    (stopBtnOnClick [[1]] [] ⟨2024, 0, 2, 3, 4, 5⟩ 0 "" ⟨"none", ""⟩ ""
        repoScripts).downloadName = "20240102030405.mp3" ∧
    (stopBtnOnClick [[1]] [] ⟨2024, 0, 2, 3, 4, 5⟩ 0 "" ⟨"none", ""⟩ ""
        repoScripts).downloadName ≠ "20240102_030405.mp3" ∧
    ("20240102030405.mp3" : String).length = 18 ∧
    ("20240102030405.mp3" : String).data.contains '_' = false := by
  refine ⟨fun _ _ _ _ _ _ _ _ => ⟨rfl, rfl⟩, by decide, by decide, by decide, by decide, by decide⟩
